import Mathlib

/-!
Verification development for the bridge_voice_ai call-lifecycle system.

The definitions below are a shallow embedding of the JavaScript sources:
  * `server/services/callMonitor.js`  (class CallMonitor and the call
    controller exported from the same module: createCall dedup,
    cleanupPhoneTracking),
  * `server/controllers/campaignController.js` (campaign batch executor and
    the webhook handlers handleStatusUpdate, handleTranscriptEvent,
    handleCallNoAnswer, handleCallEnded, handleCallFailed, ...),
  * `server/routes/vapiTools.js` (POST /transfer-conference),
  * `server/services/twilioService.js` (findActiveCallByPhone, used as an
    oracle parameter),
  * `server/utils/validators.js` (formatToE164).

Modelling conventions:
  * JavaScript `Map`s become association lists `List (String × α)` with the
    operations `mapGet` / `mapSet` / `mapDel` mirroring get / set / delete.
  * Timestamps (`new Date().toISOString()`) become a `now : Nat` parameter
    threaded through every function that reads the clock; ISO strings are
    ordered the same way as the epoch values they encode.
  * A JS object field that may be absent becomes an `Option`; spreading an
    update object over a call record (`{...call, ...updates}`) keeps the old
    value exactly when the update omits the key, which is what
    `Option.orElse` / `Option.getD` compute below.
  * Asynchronous side effects (campaign statistics updates, phone-tracking
    cleanup calls, scheduled timers, websocket broadcasts) are returned as
    explicit output lists so theorems can talk about them; the registry
    mutation itself is synchronous in the source (single event turn).
  * Fields used only for logging (events, debugMode, extendedMonitoring,
    callStateHistory, ringingAt/failedAt/connectedAt timestamps) are not
    tracked; no claim mentions them.
-/

/-- Association-list version of JavaScript `Map.prototype.get`. -/
def mapGet {α : Type} (m : List (String × α)) (k : String) : Option α :=
  match m with
  | [] => none
  | (k', v) :: rest => if k' = k then some v else mapGet rest k

/-- Association-list version of `Map.prototype.set` (replaces an existing key). -/
def mapSet {α : Type} (m : List (String × α)) (k : String) (v : α) :
    List (String × α) :=
  match m with
  | [] => [(k, v)]
  | (k', v') :: rest => if k' = k then (k, v) :: rest else (k', v') :: mapSet rest k v

/-- Association-list version of `Map.prototype.delete`. -/
def mapDel {α : Type} (m : List (String × α)) (k : String) : List (String × α) :=
  match m with
  | [] => []
  | (k', v') :: rest => if k' = k then mapDel rest k else (k', v') :: mapDel rest k

theorem mapGet_mapSet_self {α : Type} (m : List (String × α)) (k : String) (v : α) :
    mapGet (mapSet m k v) k = some v := by
  induction m with
  | nil => simp [mapGet, mapSet]
  | cons hd tl ih =>
    obtain ⟨k', v'⟩ := hd
    by_cases h : k' = k
    · simp [mapGet, mapSet, h]
    · simp [mapGet, mapSet, h, ih]

theorem mapSet_mapSet_self {α : Type} (m : List (String × α)) (k : String) (v w : α) :
    mapSet (mapSet m k v) k w = mapSet m k w := by
  induction m with
  | nil => simp [mapSet]
  | cons hd tl ih =>
    obtain ⟨k', v'⟩ := hd
    by_cases h : k' = k
    · simp [mapSet, h]
    · simp [mapSet, h, ih]

theorem mapGet_mapDel_self {α : Type} (m : List (String × α)) (k : String) :
    mapGet (mapDel m k) k = none := by
  induction m with
  | nil => simp [mapGet, mapDel]
  | cons hd tl ih =>
    obtain ⟨k', v'⟩ := hd
    by_cases h : k' = k
    · simp [mapDel, h, ih]
    · simp [mapGet, mapDel, h, ih]

/-- Keys of an association list are pairwise distinct (the invariant a real
JS `Map` maintains by construction). -/
def keysNodup {α : Type} (m : List (String × α)) : Prop :=
  (m.map Prod.fst).Nodup

/-! ### Call registry data model (callMonitor.js) -/

/-- A transcript webhook payload as consumed by `handleTranscriptEvent`
(`webhookData` fields `call.id`, `role`, `transcript`, `transcriptType`). -/
structure TranscriptEvent where
  callId : String
  role : String
  text : String
  transcriptType : String
  deriving Repr, DecidableEq

/-- One entry of a call's transcript buffer (campaignController.js builds
`{speaker, text, transcriptType, timestamp, raw}`). -/
structure TranscriptEntry where
  speaker : String
  text : String
  transcriptType : String
  timestamp : Nat
  raw : Option TranscriptEvent := none
  deriving Repr, DecidableEq

/-- One entry of a call's `statusHistory` array: either the creation record
pushed by `addCall` or a `{from, to}` transition record pushed by
`updateCall` / `handleStatusUpdate`. -/
inductive HistEntry where
  | creation (status : String)
  | transition (src : String) (dst : String)
  deriving Repr, DecidableEq

/-- A call registry entry (the enhanced call object stored in
`CallMonitor.activeCalls`).  `Option` fields model JS keys that may be
absent from the object. -/
structure Call where
  status : String
  answeredAt : Option Nat := none
  endedAt : Option Nat := none
  endReason : Option String := none
  duration : Option Nat := none
  wasAnswered : Option Bool := none
  addedAt : Nat := 0
  updatedAt : Option Nat := none
  transcript : List TranscriptEntry := []
  statusHistory : List HistEntry := []
  listenerCount : Nat := 0
  hasActiveListeners : Bool := false
  deriving Repr, DecidableEq

/-- The retry bookkeeping stored in `CallMonitor.retryAttempts`. -/
structure RetryInfo where
  count : Nat
  lastError : String
  nextRetryAt : Nat
  deriving Repr, DecidableEq

/-- The CallMonitor singleton's state.  `callListeners` maps a call id to the
ids of registered listeners (`Map<callId, Map<listenerId, callback>>`); the
callback functions themselves are opaque and not represented.  The
`audioStreams` map holds live websocket handles and is modelled only through
the retry bookkeeping that claims mention. -/
structure Monitor where
  activeCalls : List (String × Call) := []
  callListeners : List (String × List (Option String)) := []
  retryAttempts : List (String × RetryInfo) := []
  deriving Repr, DecidableEq

/-- The data handed to `CallMonitor.addCall` (only the fields the model
tracks; `status` absent means the JS `callData.status || 'queued'` default
fires). -/
structure NewCallData where
  id : String
  status : Option String := none
  answeredAt : Option Nat := none
  deriving Repr, DecidableEq

/-- `CallMonitor.addCall`: upserts the enhanced call object with empty
transcript, a creation status-history record, `listenerCount: 0` and
`hasActiveListeners: false`. -/
def addCall (m : Monitor) (now : Nat) (cd : NewCallData) : Monitor :=
  let st := cd.status.getD "queued"
  { m with
    activeCalls := mapSet m.activeCalls cd.id
      { status := st
        answeredAt := cd.answeredAt
        addedAt := now
        transcript := []
        statusHistory := [.creation st]
        listenerCount := 0
        hasActiveListeners := false } }

/-- An update object passed to `CallMonitor.updateCall`; `some` marks a key
that is present on the JS update object.  `statusHistory` is not a field
here: the only caller that passes one (`handleStatusUpdate`) passes an alias
of the entry's own array, so after the in-place pushes the merged history is
exactly the pushed history, which `mergeCall` computes directly. -/
structure CallUpdates where
  status : Option String := none
  answeredAt : Option Nat := none
  endedAt : Option Nat := none
  endReason : Option String := none
  duration : Option Nat := none
  wasAnswered : Option Bool := none
  transcript : Option (List TranscriptEntry) := none
  listenerCount : Option Nat := none
  hasActiveListeners : Option Bool := none
  deriving Repr, DecidableEq

/-- The body of `CallMonitor.updateCall` for an existing entry: push a
status-history record when the status changes, then spread the updates over
the call and stamp `updatedAt`. -/
def mergeCall (now : Nat) (c : Call) (u : CallUpdates) : Call :=
  let hist := match u.status with
    | some s => if s ≠ c.status then c.statusHistory ++ [.transition c.status s]
                else c.statusHistory
    | none => c.statusHistory
  { status := (u.status).getD c.status
    answeredAt := (u.answeredAt).orElse (fun _ => c.answeredAt)
    endedAt := (u.endedAt).orElse (fun _ => c.endedAt)
    endReason := (u.endReason).orElse (fun _ => c.endReason)
    duration := (u.duration).orElse (fun _ => c.duration)
    wasAnswered := (u.wasAnswered).orElse (fun _ => c.wasAnswered)
    addedAt := c.addedAt
    updatedAt := some now
    transcript := (u.transcript).getD c.transcript
    statusHistory := hist
    listenerCount := (u.listenerCount).getD c.listenerCount
    hasActiveListeners := (u.hasActiveListeners).getD c.hasActiveListeners }

/-- `CallMonitor.updateCall`: no-op when the call id is unknown (the JS
function only acts inside `if (call) { ... }`). -/
def updateCall (m : Monitor) (now : Nat) (id : String) (u : CallUpdates) : Monitor :=
  match mapGet m.activeCalls id with
  | none => m
  | some c => { m with activeCalls := mapSet m.activeCalls id (mergeCall now c u) }

/-- `CallMonitor.removeCall(callId, force)`: returns the new state and the
boolean result.  The two non-forced safety checks are (1) active status
(`ringing` / `in-progress` / `answered`) and (2) non-empty transcript; when
either blocks, the function returns `false` before touching any map.
Otherwise the id is deleted from every tracking map and `true` is returned
(also when the id was never present). -/
def removeCall (m : Monitor) (id : String) (force : Bool) : Monitor × Bool :=
  let blocked :=
    match mapGet m.activeCalls id with
    | some c =>
      (!force && (c.status = "ringing" || c.status = "in-progress" ||
        c.status = "answered")) ||
      (!force && !c.transcript.isEmpty)
    | none => false
  if blocked then (m, false)
  else
    ({ activeCalls := mapDel m.activeCalls id
       callListeners := mapDel m.callListeners id
       retryAttempts := mapDel m.retryAttempts id }, true)

/-! The CallMonitor class defines `addListener`/`removeListener` twice.  The
count-based pair (callMonitor.js lines 144-160) appears first in the class
body; the listener-map pair (lines 355-371) appears later.  In JavaScript a
later class method of the same name replaces the earlier one, so the
count-based pair below is dead code and the listener-map pair is what every
`callMonitor.addListener(...)` call site actually invokes. -/

/-- The shadowed count-based `addListener(callId)` (never reachable at
runtime; kept to document what the earlier definition would have done). -/
def addListenerCountBased (m : Monitor) (id : String) : Monitor :=
  match mapGet m.activeCalls id with
  | none => m
  | some c =>
    let c' := { c with listenerCount := c.listenerCount + 1
                       hasActiveListeners := c.listenerCount + 1 > 0 }
    { m with activeCalls := mapSet m.activeCalls id c' }

/-- The shadowed count-based `removeListener(callId)` (never reachable at
runtime). -/
def removeListenerCountBased (m : Monitor) (id : String) : Monitor :=
  match mapGet m.activeCalls id with
  | none => m
  | some c =>
    let n := c.listenerCount - 1
    let c' := { c with listenerCount := n, hasActiveListeners := n > 0 }
    { m with activeCalls := mapSet m.activeCalls id c' }

/-- The effective `addListener(callId, listenerId, callback)` (callMonitor.js
line 355): records the listener id in `callListeners` and never touches
`activeCalls`.  A one-argument call site passes `listenerId = undefined`,
modelled as `none`. -/
def addListener (m : Monitor) (id : String) (listenerId : Option String) : Monitor :=
  let cur := (mapGet m.callListeners id).getD []
  { m with callListeners := mapSet m.callListeners id (cur ++ [listenerId]) }

/-- The effective `removeListener(callId, listenerId)` (callMonitor.js line
363): deletes the listener id, dropping the per-call map when it empties;
never touches `activeCalls`. -/
def removeListener (m : Monitor) (id : String) (listenerId : Option String) : Monitor :=
  match mapGet m.callListeners id with
  | none => m
  | some ls =>
    let ls' := ls.filter (fun l => l ≠ listenerId)
    if ls'.isEmpty then { m with callListeners := mapDel m.callListeners id }
    else { m with callListeners := mapSet m.callListeners id ls' }

/-- A call-site sequence of listener registrations/deregistrations against
the CallMonitor singleton. -/
inductive ListenerOp where
  | add (callId : String) (listenerId : Option String)
  | remove (callId : String) (listenerId : Option String)
  deriving Repr, DecidableEq

/-- Run a sequence of `callMonitor.addListener` / `callMonitor.removeListener`
invocations. -/
def applyListenerOps (m : Monitor) (ops : List ListenerOp) : Monitor :=
  match ops with
  | [] => m
  | .add id lid :: rest => applyListenerOps (addListener m id lid) rest
  | .remove id lid :: rest => applyListenerOps (removeListener m id lid) rest

/-! ### Webhook reconciler (campaignController.js webhook section) -/

/-- The `call` object carried by a Vapi webhook, restricted to the fields the
handlers read: `id`, `status`, whether `customer.metadata.campaignId` is set
(which gates campaign statistics updates), the customer number (which gates
phone-tracking cleanup) and the optional `endReason`. -/
structure WebhookCall where
  id : String
  status : String
  hasCampaignId : Bool := false
  customerNumber : Option String := none
  endReason : Option String := none
  deriving Repr, DecidableEq

/-- The observable outcome of one webhook handler invocation: the new
registry state, the `campaignController.updateCallStatus(callId, status, _)`
invocations it made (each one mutating campaign statistics), and the
`callController.cleanupPhoneTracking(callId, number)` invocations. -/
structure HandlerOut where
  monitor : Monitor
  campaignEvents : List (String × String) := []
  phoneCleanups : List (String × String) := []
  deriving Repr, DecidableEq

/-- `handleStatusUpdate`'s list of statuses treated as answered. -/
def answeredStatuses : List String :=
  ["in-progress", "answered", "active", "connected", "conversation-started"]

/-- `handleStatusUpdate`'s exclusion list for the unknown-status heuristic. -/
def knownNonAnswerStatuses : List String :=
  ["queued", "ringing", "failed", "ended", "no-answer"]

/-- `handleCallAnswered`: set the call to `in-progress` with an `answeredAt`
stamp. -/
def handleCallAnswered (m : Monitor) (now : Nat) (wc : WebhookCall) : Monitor :=
  updateCall m now wc.id { status := some "in-progress", answeredAt := some now }

/-- `handleCallRinging`: set the call to `ringing`. -/
def handleCallRinging (m : Monitor) (now : Nat) (wc : WebhookCall) : Monitor :=
  updateCall m now wc.id { status := some "ringing" }

/-- `handleCallFailed`: mark the call failed, count a campaign failure when
the call belongs to a campaign, and clean up phone tracking.  (The delayed
forced removal it schedules is a timer, not part of the synchronous state
change.) -/
def handleCallFailed (m : Monitor) (now : Nat) (wc : WebhookCall) : HandlerOut :=
  { monitor := updateCall m now wc.id { status := some "failed" }
    campaignEvents := if wc.hasCampaignId then [(wc.id, "failed")] else []
    phoneCleanups := match wc.customerNumber with
      | some n => [(wc.id, n)]
      | none => [] }

/-- `handleCallEnded`: ignored entirely when the registry entry reports
active listeners; otherwise computes the duration from `answeredAt`, marks
the call ended and reports `completed` to the campaign.  Phone-tracking
cleanup happens only inside the delayed-cleanup timer it schedules, so it is
not part of the synchronous outcome. -/
def handleCallEnded (m : Monitor) (now : Nat) (wc : WebhookCall) : HandlerOut :=
  match mapGet m.activeCalls wc.id with
  | some c =>
    if c.hasActiveListeners then { monitor := m }
    else
      let dur := match c.answeredAt with
        | some t => (now - t) / 1000
        | none => 0
      { monitor := updateCall m now wc.id
          { status := some "ended", endedAt := some now, duration := some dur
            endReason := some (wc.endReason.getD "unknown")
            wasAnswered := some (decide (dur > 0)) }
        campaignEvents := if wc.hasCampaignId then [(wc.id, "completed")] else [] }
  | none =>
    { monitor := m
      campaignEvents := if wc.hasCampaignId then [(wc.id, "completed")] else [] }

/-- `handleCallNoAnswer`: if the registry entry carries answer evidence
(an `answeredAt` stamp or a non-empty transcript) the handler logs a status
mismatch and returns without touching anything; otherwise it marks the call
`no-answer`, counts a campaign failure and cleans up phone tracking. -/
def handleCallNoAnswer (m : Monitor) (now : Nat) (wc : WebhookCall) : HandlerOut :=
  let proceed : HandlerOut :=
    { monitor := updateCall m now wc.id
        { status := some "no-answer", endedAt := some now
          endReason := some "no-answer", wasAnswered := some false }
      campaignEvents := if wc.hasCampaignId then [(wc.id, "no-answer")] else []
      phoneCleanups := match wc.customerNumber with
        | some n => [(wc.id, n)]
        | none => [] }
  match mapGet m.activeCalls wc.id with
  | some c =>
    if c.answeredAt.isSome || !c.transcript.isEmpty then { monitor := m }
    else proceed
  | none => proceed

/-- `handleStatusUpdate`: push a `{from, to}` record onto the entry's status
history (or auto-create a minimal entry for an unknown id), dispatch to the
per-status handler, then apply the final
`callMonitor.updateCall(call.id, updates)` whose `updates.status` is always
the raw reported status (so the final stored status is the reported one) and
whose `updates.answeredAt` is stamped exactly in the answered and
unknown-status branches.  Split into the three stages below.

`statusHistPush`: the entry bookkeeping at the top of `handleStatusUpdate`
(push the transition record, or auto-create a minimal entry). -/
def statusHistPush (m : Monitor) (now : Nat) (wc : WebhookCall) : Monitor :=
  match mapGet m.activeCalls wc.id with
  | some c =>
    let c' := { c with statusHistory := c.statusHistory ++ [.transition c.status wc.status] }
    { m with activeCalls := mapSet m.activeCalls wc.id c' }
  | none => addCall m now { id := wc.id, status := some wc.status }

/-- The per-status dispatch inside `handleStatusUpdate`; the boolean records
whether the branch set `updates.answeredAt` (answered statuses and the
unknown-status heuristic). -/
def statusBranch (m0 : Monitor) (now : Nat) (wc : WebhookCall) : HandlerOut × Bool :=
  if wc.status ∈ answeredStatuses then
    ({ monitor := handleCallAnswered m0 now wc }, true)
  else if wc.status = "ringing" then
    ({ monitor := handleCallRinging m0 now wc }, false)
  else if wc.status = "queued" then
    ({ monitor := m0 }, false)
  else if wc.status = "failed" then
    (handleCallFailed m0 now wc, false)
  else if wc.status = "ended" then
    (handleCallEnded m0 now wc, false)
  else if wc.status ≠ "" && wc.status ∉ knownNonAnswerStatuses then
    ({ monitor := handleCallAnswered m0 now wc }, true)
  else
    ({ monitor := m0 }, false)

def handleStatusUpdate (m : Monitor) (now : Nat) (wc : WebhookCall) : HandlerOut :=
  let m0 := statusHistPush m now wc
  let step := statusBranch m0 now wc
  let u : CallUpdates :=
    { status := some wc.status
      answeredAt := if step.2 then some now else none }
  { step.1 with monitor := updateCall step.1.monitor now wc.id u }

/-- `handleTranscriptEvent`: force-promotes a not-yet-answered call to
`in-progress`, appends/replaces the transcript entry on the original call
object, caps the buffer at 100 entries, then re-applies the whole original
object via `callMonitor.updateCall(call.id, callData)`.  Because `callData`
is the object fetched *before* the promotion, that final merge restores the
pre-promotion status; only the `answeredAt` stamp of the promotion survives
(the original object carries no `answeredAt` key in that case). -/
def replaceLastOrPush (ts : List TranscriptEntry) (e : TranscriptEntry) :
    List TranscriptEntry :=
  match ts.getLast? with
  | some last =>
    if last.speaker = e.speaker ∧ last.transcriptType = "partial" then
      ts.dropLast ++ [e]
    else ts ++ [e]
  | none => ts ++ [e]

/-- The transcript buffer after inserting an entry and applying the JS
`slice(-100)` cap. -/
def insertTranscript (ts : List TranscriptEntry) (e : TranscriptEntry)
    (transcriptType : String) : List TranscriptEntry :=
  let t1 := if transcriptType = "partial" then replaceLastOrPush ts e
            else ts ++ [e]
  if t1.length > 100 then t1.drop (t1.length - 100) else t1

/-- The update object that re-applying a whole call object through
`updateCall` amounts to: every tracked key of the object, present. -/
def fullUpdates (c : Call) : CallUpdates :=
  { status := some c.status
    answeredAt := c.answeredAt
    endedAt := c.endedAt
    endReason := c.endReason
    duration := c.duration
    wasAnswered := c.wasAnswered
    transcript := some c.transcript
    listenerCount := some c.listenerCount
    hasActiveListeners := some c.hasActiveListeners }

/-- The transcript entry `handleTranscriptEvent` builds from a webhook
payload. -/
def tEntry (now : Nat) (ev : TranscriptEvent) : TranscriptEntry :=
  { speaker := if ev.role = "assistant" then "assistant" else "customer"
    text := ev.text, transcriptType := ev.transcriptType
    timestamp := now, raw := some ev }

/-- `handleTranscriptEvent` (campaignController.js line 1227). -/
def handleTranscriptEvent (m : Monitor) (now : Nat) (ev : TranscriptEvent) : Monitor :=
  match mapGet m.activeCalls ev.callId with
  | none => m
  | some c =>
    let promoted := c.status ≠ "in-progress" ∧ c.status ≠ "answered"
    let m1 := if promoted then
        updateCall m now ev.callId
          { status := some "in-progress", answeredAt := some (c.answeredAt.getD now) }
      else m
    let t2 := insertTranscript c.transcript (tEntry now ev) ev.transcriptType
    updateCall m1 now ev.callId (fullUpdates { c with transcript := t2 })

/-- The status ranking of the spec's state machine (§4.1): modelled from the
spec, since the code has no rank function — the claims are stated against
this ranking.  `queued → ringing → in-progress → terminal`, with `ending`
and `transferring` as late auxiliary stages and `answered` a synonym the
code uses for `in-progress`. -/
def statusRank : String → Nat
  | "queued" => 0
  | "ringing" => 1
  | "in-progress" => 2
  | "answered" => 2
  | "transferring" => 3
  | "ending" => 3
  | "ended" => 4
  | "failed" => 4
  | "no-answer" => 4
  | _ => 0

/-! ### Helper lemmas -/

theorem option_orElse_self {α : Type} (o : Option α) :
    o.orElse (fun _ => o) = o := by
  cases o <;> rfl

/-- The status stored for a call id. -/
def callStatus (m : Monitor) (id : String) : Option String :=
  (mapGet m.activeCalls id).map Call.status

theorem applyListenerOps_activeCalls (ops : List ListenerOp) (m : Monitor) :
    (applyListenerOps m ops).activeCalls = m.activeCalls := by
  induction ops generalizing m with
  | nil => rfl
  | cons op rest ih =>
    cases op with
    | add id lid =>
      rw [applyListenerOps, ih]
      rfl
    | remove id lid =>
      rw [applyListenerOps, ih]
      unfold removeListener
      cases mapGet m.callListeners id with
      | none => rfl
      | some ls =>
        dsimp only
        split <;> rfl

theorem updateCall_isSome (m : Monitor) (now : Nat) (id : String) (u : CallUpdates)
    (h : (mapGet m.activeCalls id).isSome) :
    (mapGet (updateCall m now id u).activeCalls id).isSome := by
  obtain ⟨c, hc⟩ := Option.isSome_iff_exists.mp h
  unfold updateCall
  rw [hc]
  simp [mapGet_mapSet_self]

theorem callStatus_updateCall_set (m : Monitor) (now : Nat) (id : String)
    (u : CallUpdates) (s : String) (hu : u.status = some s)
    (h : (mapGet m.activeCalls id).isSome) :
    callStatus (updateCall m now id u) id = some s := by
  obtain ⟨c, hc⟩ := Option.isSome_iff_exists.mp h
  unfold updateCall callStatus
  rw [hc]
  simp [mapGet_mapSet_self, mergeCall, hu]

/-! ### Claim C10 -/

/-- C10: because the later two-argument `addListener`/`removeListener`
definitions shadow the earlier count-based ones, no sequence of
`callMonitor.addListener` / `callMonitor.removeListener` invocations ever
touches `activeCalls`; in particular, for a freshly registered call the
`listenerCount` field stays at its initial value 0 and `hasActiveListeners`
stays `false`. -/
theorem listener_shadowing_freezes_counts (m : Monitor) (now : Nat)
    (cd : NewCallData) (ops : List ListenerOp) :
    (applyListenerOps (addCall m now cd) ops).activeCalls
        = (addCall m now cd).activeCalls ∧
    (mapGet (applyListenerOps (addCall m now cd) ops).activeCalls cd.id).map
        (fun c => (c.listenerCount, c.hasActiveListeners)) = some (0, false) := by
  refine ⟨applyListenerOps_activeCalls ops _, ?_⟩
  rw [applyListenerOps_activeCalls ops _]
  unfold addCall
  simp [mapGet_mapSet_self]

/-! ### Claim C2 -/

/-- A registry holding one ended call with an empty transcript but a live
listener count of 1 (the configuration the claim says must block eviction). -/
def c2Registry : Monitor :=
  { activeCalls := [("call-ended", { status := "ended", listenerCount := 1, addedAt := 0 })] }

/-- C2 counterexample: `removeCall(callId, force=false)` succeeds (returns
`true` and deletes the entry) on a call whose `listenerCount` is 1, because
the implementation's non-forced guards test the status and the transcript
but never `listenerCount` — contradicting the claim that a non-forced
removal happens only when `listenerCount == 0`. -/
theorem removeCall_ignores_listenerCount :
    (mapGet c2Registry.activeCalls "call-ended").map Call.listenerCount = some 1 ∧
    (mapGet c2Registry.activeCalls "call-ended").map Call.transcript = some [] ∧
    removeCall c2Registry "call-ended" false
      = ({ activeCalls := [], callListeners := [], retryAttempts := [] }, true) := by
  decide

/-- C2 (amended): for an existing call, non-forced `removeCall` succeeds
exactly when the status is not active (`ringing`/`in-progress`/`answered`)
and the transcript is empty — `listenerCount` is not consulted; when blocked
it returns `false` leaving the whole monitor untouched; `force=true` always
removes the entry and returns `true`. -/
theorem removeCall_guards (m : Monitor) (id : String) (c : Call)
    (h : mapGet m.activeCalls id = some c) :
    ((c.status ≠ "ringing" ∧ c.status ≠ "in-progress" ∧ c.status ≠ "answered")
        ∧ c.transcript = [] →
      removeCall m id false
        = ({ activeCalls := mapDel m.activeCalls id
             callListeners := mapDel m.callListeners id
             retryAttempts := mapDel m.retryAttempts id }, true)) ∧
    ((c.status = "ringing" ∨ c.status = "in-progress" ∨ c.status = "answered")
        ∨ c.transcript ≠ [] →
      removeCall m id false = (m, false)) ∧
    removeCall m id true
      = ({ activeCalls := mapDel m.activeCalls id
           callListeners := mapDel m.callListeners id
           retryAttempts := mapDel m.retryAttempts id }, true) := by
  refine ⟨?_, ?_, ?_⟩
  · rintro ⟨⟨h1, h2, h3⟩, h4⟩
    unfold removeCall
    rw [h]
    simp [h1, h2, h3, h4]
  · intro hcond
    unfold removeCall
    rw [h]
    rcases hcond with (h1 | h1 | h1) | h1 <;>
      simp [h1, List.isEmpty_iff]
  · unfold removeCall
    rw [h]
    simp

/-- C2 amended-claim witness: a queued call with an empty transcript is
removable without force, and an in-progress call is removable with force. -/
theorem removeCall_guards_witness :
    removeCall { activeCalls := [("q", { status := "queued", addedAt := 0 })] } "q" false
      = ({ activeCalls := [], callListeners := [], retryAttempts := [] }, true) := by
  have h := (removeCall_guards
    { activeCalls := [("q", { status := "queued", addedAt := 0 })] } "q"
    { status := "queued", addedAt := 0 } (by decide)).1 (by decide)
  rw [h]
  decide

/-! ### Claim C3 -/

/-- C3: a late `call-no-answer` webhook for a call whose registry entry
carries answer evidence (an `answeredAt` stamp or a non-empty transcript)
leaves the registry untouched, performs no campaign statistics update and no
phone-tracking cleanup — so the status is never regressed to `no-answer`, no
`endedAt` is written and no campaign failure is counted. -/
theorem noAnswer_evidence_guard (m : Monitor) (now : Nat) (wc : WebhookCall) (c : Call)
    (h : mapGet m.activeCalls wc.id = some c)
    (hev : c.answeredAt.isSome ∨ c.transcript ≠ []) :
    handleCallNoAnswer m now wc = { monitor := m } := by
  unfold handleCallNoAnswer
  rw [h]
  have : (c.answeredAt.isSome || !c.transcript.isEmpty) = true := by
    rcases hev with h1 | h2
    · simp [h1]
    · simp [List.isEmpty_iff, h2]
  simp [this]

/-- A registry entry that was answered and produced one final transcript
line (the spec's scenario just before a stale `call-no-answer` arrives). -/
def c3AnsweredEntry : Call :=
  { status := "in-progress", answeredAt := some 7, addedAt := 0
    transcript := [{ speaker := "customer", text := "hello"
                     transcriptType := "final", timestamp := 8 }] }

/-- The registry holding `c3AnsweredEntry`. -/
def c3Registry : Monitor :=
  { activeCalls := [("w3", c3AnsweredEntry)] }

/-- C3 witness: the spec's scenario — a call promoted to `in-progress` with a
final transcript line, then hit by a stale `call-no-answer`: nothing changes. -/
theorem noAnswer_evidence_guard_witness :
    handleCallNoAnswer c3Registry 30 { id := "w3", status := "no-answer" }
      = { monitor := c3Registry } :=
  noAnswer_evidence_guard c3Registry 30 { id := "w3", status := "no-answer" }
    c3AnsweredEntry (by decide) (by decide)

/-! ### Claim C1 -/

theorem statusHistPush_isSome (m : Monitor) (now : Nat) (wc : WebhookCall) :
    (mapGet (statusHistPush m now wc).activeCalls wc.id).isSome := by
  unfold statusHistPush
  cases hc : mapGet m.activeCalls wc.id with
  | none => simp [addCall, mapGet_mapSet_self]
  | some c => simp [mapGet_mapSet_self]

theorem handleCallAnswered_isSome (m : Monitor) (now : Nat) (wc : WebhookCall)
    (h : (mapGet m.activeCalls wc.id).isSome) :
    (mapGet (handleCallAnswered m now wc).activeCalls wc.id).isSome :=
  updateCall_isSome m now wc.id _ h

theorem handleCallRinging_isSome (m : Monitor) (now : Nat) (wc : WebhookCall)
    (h : (mapGet m.activeCalls wc.id).isSome) :
    (mapGet (handleCallRinging m now wc).activeCalls wc.id).isSome :=
  updateCall_isSome m now wc.id _ h

theorem handleCallFailed_isSome (m : Monitor) (now : Nat) (wc : WebhookCall)
    (h : (mapGet m.activeCalls wc.id).isSome) :
    (mapGet (handleCallFailed m now wc).monitor.activeCalls wc.id).isSome :=
  updateCall_isSome m now wc.id _ h

theorem handleCallEnded_isSome (m : Monitor) (now : Nat) (wc : WebhookCall)
    (h : (mapGet m.activeCalls wc.id).isSome) :
    (mapGet (handleCallEnded m now wc).monitor.activeCalls wc.id).isSome := by
  obtain ⟨c, hc⟩ := Option.isSome_iff_exists.mp h
  unfold handleCallEnded
  rw [hc]
  by_cases hl : c.hasActiveListeners
  · simp [hl, h]
  · simp [hl]
    exact updateCall_isSome m now wc.id _ h

theorem statusBranch_isSome (m0 : Monitor) (now : Nat) (wc : WebhookCall)
    (h : (mapGet m0.activeCalls wc.id).isSome) :
    (mapGet (statusBranch m0 now wc).1.monitor.activeCalls wc.id).isSome := by
  unfold statusBranch
  split
  · exact handleCallAnswered_isSome m0 now wc h
  · split
    · exact handleCallRinging_isSome m0 now wc h
    · split
      · exact h
      · split
        · exact handleCallFailed_isSome m0 now wc h
        · split
          · exact handleCallEnded_isSome m0 now wc h
          · split
            · exact handleCallAnswered_isSome m0 now wc h
            · exact h

/-- A registry holding one call already `in-progress`. -/
def c1Registry : Monitor :=
  { activeCalls := [("c1", { status := "in-progress", answeredAt := some 5, addedAt := 0 })] }

/-- C1 counterexample: a `status-update` webhook reporting `ringing` for a
call that is already `in-progress` is applied verbatim — the stored status
becomes `ringing`, a status of strictly lower rank, and the transition is
not an evidence-forced promotion to `in-progress`.  The rank-gate described
by the claim does not exist in `CallMonitor.updateCall` or
`handleStatusUpdate`. -/
theorem status_regression_applied :
    statusRank "ringing" < statusRank "in-progress" ∧
    callStatus (handleStatusUpdate c1Registry 10
        { id := "c1", status := "ringing" }).monitor "c1" = some "ringing" := by
  constructor
  · decide
  · decide

/-- C1 (amended): there is no rank gate.  `handleStatusUpdate` always ends by
storing exactly the reported status (whatever its rank; the entry is
auto-created first when the id is unknown), and a bare
`CallMonitor.updateCall` carrying a status likewise overwrites the stored
status of an existing call unconditionally.  Evidence-forced promotion never
has to fire for this to hold. -/
theorem status_update_no_rank_gate (m : Monitor) (now : Nat) (wc : WebhookCall) :
    callStatus (handleStatusUpdate m now wc).monitor wc.id = some wc.status ∧
    (∀ (id : String) (s : String), (mapGet m.activeCalls id).isSome →
      callStatus (updateCall m now id { status := some s }) id = some s) := by
  constructor
  · unfold handleStatusUpdate
    exact callStatus_updateCall_set _ now wc.id _ wc.status rfl
      (statusBranch_isSome _ now wc (statusHistPush_isSome m now wc))
  · intro id s hid
    exact callStatus_updateCall_set m now id _ s rfl hid

/-- C1 amended-claim witness: the concrete regression instance, driven
through the amended theorem. -/
theorem status_update_no_rank_gate_witness :
    callStatus (handleStatusUpdate c1Registry 10
        { id := "c1", status := "ringing" }).monitor "c1" = some "ringing" ∧
    callStatus (updateCall c1Registry 10 "c1" { status := some "queued" }) "c1"
      = some "queued" :=
  ⟨(status_update_no_rank_gate c1Registry 10 { id := "c1", status := "ringing" }).1,
   (status_update_no_rank_gate c1Registry 10
      { id := "c1", status := "ringing" }).2 "c1" "queued" (by decide)⟩

/-! ### Claim C4 -/

theorem getLast?_drop {α : Type} (l : List α) (k : Nat) (h : k < l.length) :
    (l.drop k).getLast? = l.getLast? := by
  induction l generalizing k with
  | nil => simp at h
  | cons a t ih =>
    cases k with
    | zero => rfl
    | succ k' =>
      have hk : k' < t.length := by simpa using h
      have ht : t ≠ [] := by
        intro hnil
        rw [hnil] at hk
        simp at hk
      obtain ⟨b, t', rfl⟩ := List.exists_cons_of_ne_nil ht
      rw [List.drop_succ_cons, ih k' hk, List.getLast?_cons_cons]

theorem replaceLastOrPush_getLast (ts : List TranscriptEntry) (e : TranscriptEntry) :
    (replaceLastOrPush ts e).getLast? = some e := by
  unfold replaceLastOrPush
  cases h : ts.getLast? with
  | none => simp
  | some last =>
    by_cases hc : last.speaker = e.speaker ∧ last.transcriptType = "partial"
    · simp [hc, List.getLast?_concat]
    · simp [hc, List.getLast?_concat]

theorem insertTranscript_getLast (ts : List TranscriptEntry) (e : TranscriptEntry)
    (tt : String) : (insertTranscript ts e tt).getLast? = some e := by
  unfold insertTranscript
  dsimp only
  set t1 := if tt = "partial" then replaceLastOrPush ts e else ts ++ [e] with ht1
  have h1 : t1.getLast? = some e := by
    rw [ht1]
    split
    · exact replaceLastOrPush_getLast ts e
    · exact List.getLast?_concat ts
  by_cases hc : t1.length > 100
  · rw [if_pos hc, getLast?_drop _ _ (by omega)]
    exact h1
  · rw [if_neg hc]
    exact h1

theorem insertTranscript_length_le (ts : List TranscriptEntry) (e : TranscriptEntry)
    (tt : String) : (insertTranscript ts e tt).length ≤ 100 := by
  unfold insertTranscript
  dsimp only
  set t1 := if tt = "partial" then replaceLastOrPush ts e else ts ++ [e] with ht1
  by_cases hc : t1.length > 100
  · rw [if_pos hc, List.length_drop]
    omega
  · rw [if_neg hc]
    omega

/-- Re-inserting the identical partial entry into a buffer that already ends
with it is a no-op (the in-place replacement semantics). -/
theorem insertTranscript_partial_idem (ts : List TranscriptEntry) (e : TranscriptEntry)
    (hl : ts.getLast? = some e) (he : e.transcriptType = "partial")
    (hlen : ts.length ≤ 100) :
    insertTranscript ts e "partial" = ts := by
  have hrep : replaceLastOrPush ts e = ts := by
    unfold replaceLastOrPush
    rw [hl]
    show (if e.speaker = e.speaker ∧ e.transcriptType = "partial"
          then ts.dropLast ++ [e] else ts ++ [e]) = ts
    rw [if_pos ⟨rfl, he⟩]
    exact List.dropLast_append_getLast? e hl
  have hstep : insertTranscript ts e "partial"
      = (if (replaceLastOrPush ts e).length > 100
         then (replaceLastOrPush ts e).drop ((replaceLastOrPush ts e).length - 100)
         else replaceLastOrPush ts e) := rfl
  rw [hstep, hrep, if_neg (by omega)]

/-- Re-applying a whole call object through `updateCall` keeps every field
and restamps `updatedAt` (the JS `{...call, ...updates, updatedAt}` merge). -/
theorem mergeCall_full (now : Nat) (c : Call) (t2 : List TranscriptEntry) :
    mergeCall now c (fullUpdates { c with transcript := t2 })
      = { c with transcript := t2, updatedAt := some now } := by
  unfold mergeCall fullUpdates
  simp [option_orElse_self]

/-- The registry entry `handleTranscriptEvent` leaves behind for a call that
was already marked answered: transcript inserted, `updatedAt` restamped,
everything else (measured on the pre-promotion object) unchanged. -/
def transcriptMerged (c : Call) (now : Nat) (ev : TranscriptEvent) : Call :=
  { c with transcript := insertTranscript c.transcript (tEntry now ev) ev.transcriptType
           updatedAt := some now }

/-- `handleTranscriptEvent` on a call already marked answered: no promotion
fires, the transcript is inserted and `updatedAt` restamped. -/
theorem handleTranscriptEvent_eq (m : Monitor) (now : Nat) (ev : TranscriptEvent)
    (c : Call) (h : mapGet m.activeCalls ev.callId = some c)
    (hip : c.status = "in-progress" ∨ c.status = "answered") :
    handleTranscriptEvent m now ev =
      { m with activeCalls := mapSet m.activeCalls ev.callId (transcriptMerged c now ev) } := by
  have hnp : ¬(c.status ≠ "in-progress" ∧ c.status ≠ "answered") := by
    rcases hip with h1 | h1 <;> simp [h1]
  unfold handleTranscriptEvent
  rw [h]
  dsimp only
  rw [if_neg hnp]
  unfold updateCall
  rw [h]
  dsimp only
  rw [mergeCall_full]
  rfl

/-- Below the 100-entry cap, a non-partial insertion appends exactly one
entry. -/
theorem insertTranscript_append_length (ts : List TranscriptEntry) (e : TranscriptEntry)
    (tt : String) (hft : ¬(tt = "partial")) (h : ts.length ≤ 99) :
    (insertTranscript ts e tt).length = ts.length + 1 := by
  unfold insertTranscript
  dsimp only
  rw [if_neg hft]
  rw [if_neg (by simp; omega)]
  simp

/-- The transcript length stored for a call id. -/
def transcriptLen (m : Monitor) (id : String) : Option Nat :=
  (mapGet m.activeCalls id).map (fun c => c.transcript.length)

/-- A registry with one in-progress call and an empty transcript. -/
def c4Registry : Monitor :=
  { activeCalls := [("c4", { status := "in-progress", answeredAt := some 5, addedAt := 0 })] }

/-- The re-delivered final transcript event. -/
def c4Event : TranscriptEvent :=
  { callId := "c4", role := "user", text := "hello", transcriptType := "final" }

/-- C4 counterexample: delivering the same `transcript:final` event twice is
not idempotent — the line is appended on each delivery, so the registry ends
with two copies instead of one and the states differ. -/
theorem transcript_redelivery_not_idempotent :
    handleTranscriptEvent (handleTranscriptEvent c4Registry 20 c4Event) 20 c4Event
      ≠ handleTranscriptEvent c4Registry 20 c4Event ∧
    transcriptLen (handleTranscriptEvent c4Registry 20 c4Event) "c4" = some 1 ∧
    transcriptLen (handleTranscriptEvent (handleTranscriptEvent c4Registry 20 c4Event)
        20 c4Event) "c4" = some 2 := by
  refine ⟨?_, by decide, by decide⟩
  decide

/-- C4 (amended): for a call already `in-progress`, re-delivering the same
partial transcript event is idempotent (the partial replaces the previous
partial from the same speaker in place), but a final transcript is appended
on every delivery, so re-delivery of a final event double-appends the line
(below the 100-entry cap the length grows by one per delivery).
`handleTranscriptEvent` makes no campaign-statistics call at all — its
result is only a registry state. -/
theorem transcript_redelivery_semantics (m : Monitor) (now : Nat)
    (ev : TranscriptEvent) (c : Call)
    (h : mapGet m.activeCalls ev.callId = some c)
    (hip : c.status = "in-progress") :
    (ev.transcriptType = "partial" →
      handleTranscriptEvent (handleTranscriptEvent m now ev) now ev
        = handleTranscriptEvent m now ev) ∧
    (ev.transcriptType = "final" →
      transcriptLen (handleTranscriptEvent m now ev) ev.callId
        = some (min (c.transcript.length + 1) 100) ∧
      (c.transcript.length ≤ 98 →
        transcriptLen (handleTranscriptEvent (handleTranscriptEvent m now ev) now ev)
            ev.callId
          = some (c.transcript.length + 2))) := by
  have h1 := handleTranscriptEvent_eq m now ev c h (Or.inl hip)
  have hget1 : mapGet (handleTranscriptEvent m now ev).activeCalls ev.callId
      = some (transcriptMerged c now ev) := by
    rw [h1]
    exact mapGet_mapSet_self _ _ _
  have h2 := handleTranscriptEvent_eq (handleTranscriptEvent m now ev) now ev
    (transcriptMerged c now ev) hget1 (Or.inl hip)
  constructor
  · intro hp
    rw [h2]
    have hidem : transcriptMerged (transcriptMerged c now ev) now ev
        = transcriptMerged c now ev := by
      unfold transcriptMerged
      have hlast : (insertTranscript c.transcript (tEntry now ev) ev.transcriptType).getLast?
          = some (tEntry now ev) := insertTranscript_getLast _ _ _
      have hetp : (tEntry now ev).transcriptType = "partial" := by
        simp [tEntry, hp]
      have hlen : (insertTranscript c.transcript (tEntry now ev) ev.transcriptType).length
          ≤ 100 := insertTranscript_length_le _ _ _
      rw [hp] at hlast hlen ⊢
      rw [insertTranscript_partial_idem _ _ hlast hetp hlen]
    rw [hidem, h1]
    simp [mapSet_mapSet_self]
  · intro hf
    have hfp : ¬(ev.transcriptType = "partial") := by
      rw [hf]
      decide
    have hlen1 : (insertTranscript c.transcript (tEntry now ev) ev.transcriptType).length
        = min (c.transcript.length + 1) 100 := by
      unfold insertTranscript
      dsimp only
      rw [if_neg hfp]
      by_cases hc : (c.transcript ++ [tEntry now ev]).length > 100
      · rw [if_pos hc, List.length_drop]
        simp at hc ⊢
        omega
      · rw [if_neg hc]
        simp at hc ⊢
        omega
    constructor
    · rw [h1]
      unfold transcriptLen transcriptMerged
      rw [mapGet_mapSet_self]
      simp [hlen1]
    · intro hsmall
      have ht2len : (insertTranscript c.transcript (tEntry now ev) ev.transcriptType).length
          = c.transcript.length + 1 := by
        rw [hlen1]
        omega
      have hlen2 := insertTranscript_append_length
        (insertTranscript c.transcript (tEntry now ev) ev.transcriptType)
        (tEntry now ev) ev.transcriptType hfp (by omega)
      rw [h2]
      unfold transcriptLen transcriptMerged
      rw [mapGet_mapSet_self]
      simp [hlen2, ht2len]

/-- C4 amended-claim witness: partial re-delivery is idempotent, final
re-delivery appends twice, at concrete inputs. -/
theorem transcript_redelivery_semantics_witness :
    (handleTranscriptEvent (handleTranscriptEvent c4Registry 20
        { callId := "c4", role := "user", text := "hi", transcriptType := "partial" }) 20
        { callId := "c4", role := "user", text := "hi", transcriptType := "partial" }
      = handleTranscriptEvent c4Registry 20
        { callId := "c4", role := "user", text := "hi", transcriptType := "partial" }) ∧
    transcriptLen (handleTranscriptEvent (handleTranscriptEvent c4Registry 20 c4Event)
        20 c4Event) "c4" = some 2 :=
  ⟨(transcript_redelivery_semantics c4Registry 20
      { callId := "c4", role := "user", text := "hi", transcriptType := "partial" }
      { status := "in-progress", answeredAt := some 5, addedAt := 0 }
      (by decide) (by decide)).1 (by decide),
   by
    have hx := ((transcript_redelivery_semantics c4Registry 20 c4Event
      { status := "in-progress", answeredAt := some 5, addedAt := 0 }
      (by decide) (by decide)).2 (by decide)).2 (by decide)
    simpa using hx⟩

/-! ### Campaign batch executor (campaignController.js lines 8-263) -/

/-- A contact from the campaign queue (only identity matters for the claims;
the dispatch payload fields are opaque). -/
structure Contact where
  phoneNumber : String
  leadId : String := ""
  deriving Repr, DecidableEq

/-- Aggregate campaign statistics. -/
structure CampaignStats where
  total : Nat
  completed : Nat
  failed : Nat
  inProgress : Nat
  queued : Nat
  deriving Repr, DecidableEq

/-- A campaign record as stored under `campaign:{id}`. -/
structure Campaign where
  id : String
  name : String := ""
  status : String
  callDelay : Nat := 0
  maxConcurrent : Nat := 0
  scheduleTime : Option Nat := none
  stats : CampaignStats := { total := 0, completed := 0, failed := 0, inProgress := 0, queued := 0 }
  currentBatch : Nat := 0
  deriving Repr, DecidableEq

/-- The body of a campaign-start request. -/
structure StartRequest where
  id : String
  name : String
  contacts : List Contact
  callDelay : Nat
  maxConcurrent : Nat
  scheduleTime : Option Nat := none
  deriving Repr, DecidableEq

/-- What `startCampaign` did: rejected with the already-active error, started
draining immediately, or deferred execution behind a timer. -/
inductive StartOutcome where
  | alreadyActive
  | started
  | scheduledTimer (delayMs : Nat)
  deriving Repr, DecidableEq

/-- The observable result of `startCampaign`: HTTP status, the campaign
record written to the store (if any), the contact queue written (if any) and
the control-flow outcome.  `none` writes mean the store was not touched. -/
structure StartResult where
  httpStatus : Nat
  savedCampaign : Option Campaign := none
  savedQueue : Option (List Contact) := none
  outcome : StartOutcome
  deriving Repr, DecidableEq

/-- `startCampaign` (campaignController.js line 8): reject with 400 before
any write when some stored campaign is `active`; otherwise build the
campaign record (status `active`, `callDelay` converted to ms, stats seeded
from the contact count), save it and the queue, then either defer via a
timer (future `scheduleTime`, record re-saved as `scheduled`) or execute
immediately. -/
def startCampaign (existing : List Campaign) (now : Nat) (req : StartRequest) :
    StartResult :=
  if (existing.filter (fun c => c.status = "active")).length > 0 then
    { httpStatus := 400, outcome := .alreadyActive }
  else
    let camp : Campaign :=
      { id := req.id, name := req.name, status := "active"
        callDelay := req.callDelay * 1000
        maxConcurrent := req.maxConcurrent
        scheduleTime := req.scheduleTime
        stats := { total := req.contacts.length, completed := 0, failed := 0
                   inProgress := 0, queued := req.contacts.length }
        currentBatch := 0 }
    match req.scheduleTime with
    | some t =>
      if now < t then
        { httpStatus := 200
          savedCampaign := some { camp with status := "scheduled" }
          savedQueue := some req.contacts
          outcome := .scheduledTimer (t - now) }
      else
        { httpStatus := 200, savedCampaign := some camp
          savedQueue := some req.contacts, outcome := .started }
    | none =>
      { httpStatus := 200, savedCampaign := some camp
        savedQueue := some req.contacts, outcome := .started }

/-- How a run of the batch loop stopped: the queue drained and
`completeCampaign` ran, or the status check at the top of an iteration saw a
non-active campaign and halted, or the step budget ran out (never happens
with enough fuel). -/
inductive BatchStop where
  | completed
  | halted
  | fuelOut
  deriving Repr, DecidableEq

/-- The observable trace of `processBatch` recursion: the dispatched batches
in order, every individual dispatch attempt with its success flag, and how
the loop stopped. -/
structure BatchRun where
  batches : List (List Contact)
  attempts : List (Contact × Bool)
  stop : BatchStop
  deriving Repr, DecidableEq

/-- The `processBatch` loop of `executeCampaign` (campaignController.js
lines 93-153).  `statusAt i` is the campaign status Redis reports when
iteration `i` re-fetches the record (cooperative cancellation point);
`dispatchOk` is the oracle for whether `makeCall` succeeds for a contact
(`makeCall` catches its own failures and `Promise.allSettled` never rejects,
so a failure never aborts the batch); the queue is popped atomically up to
`maxConcurrent` contacts per iteration. -/
def processBatches (statusAt : Nat → String) (dispatchOk : Contact → Bool)
    (maxConcurrent : Nat) : Nat → List Contact → Nat → BatchRun
  | 0, _, _ => { batches := [], attempts := [], stop := .fuelOut }
  | fuel + 1, queue, iter =>
    if statusAt iter ≠ "active" then
      { batches := [], attempts := [], stop := .halted }
    else if queue.length = 0 then
      { batches := [], attempts := [], stop := .completed }
    else
      let batch := queue.take maxConcurrent
      if batch.length = 0 then
        { batches := [], attempts := [], stop := .completed }
      else
        let rest := processBatches statusAt dispatchOk maxConcurrent fuel
          (queue.drop maxConcurrent) (iter + 1)
        { batches := batch :: rest.batches
          attempts := batch.map (fun ct => (ct, dispatchOk ct)) ++ rest.attempts
          stop := rest.stop }

/-! ### Claims C6 and C7 -/

/-- The batch sizes the loop produces for a queue of `n` contacts at
concurrency `mc` (first argument is the fuel mirroring `processBatches`). -/
def batchSizes (mc : Nat) : Nat → Nat → List Nat
  | 0, _ => []
  | _ + 1, 0 => []
  | fuel + 1, n + 1 => min mc (n + 1) :: batchSizes mc fuel (n + 1 - mc)

theorem processBatches_run (statusAt : Nat → String) (dispatchOk : Contact → Bool)
    (mc : Nat) (hmc : 0 < mc) (hact : ∀ i, statusAt i = "active") :
    ∀ (fuel : Nat) (queue : List Contact) (iter : Nat), queue.length < fuel →
      (processBatches statusAt dispatchOk mc fuel queue iter).stop = .completed ∧
      (processBatches statusAt dispatchOk mc fuel queue iter).attempts
        = queue.map (fun ct => (ct, dispatchOk ct)) ∧
      (processBatches statusAt dispatchOk mc fuel queue iter).batches.map List.length
        = batchSizes mc fuel queue.length := by
  intro fuel
  induction fuel with
  | zero =>
    intro queue iter hq
    omega
  | succ fuel ih =>
    intro queue iter hq
    by_cases hz : queue.length = 0
    · have hqe : queue = [] := List.length_eq_zero.mp hz
      subst hqe
      simp [processBatches, hact iter, batchSizes]
    · have hbatch : (queue.take mc).length ≠ 0 := by
        rw [List.length_take]
        omega
      have hrec := ih (queue.drop mc) (iter + 1) (by rw [List.length_drop]; omega)
      obtain ⟨h1, h2, h3⟩ := hrec
      have hstep : processBatches statusAt dispatchOk mc (fuel + 1) queue iter
          = { batches := queue.take mc ::
                (processBatches statusAt dispatchOk mc fuel (queue.drop mc) (iter + 1)).batches
              attempts := (queue.take mc).map (fun ct => (ct, dispatchOk ct)) ++
                (processBatches statusAt dispatchOk mc fuel (queue.drop mc) (iter + 1)).attempts
              stop := (processBatches statusAt dispatchOk mc fuel (queue.drop mc)
                (iter + 1)).stop } := by
        rw [processBatches]
        rw [if_neg (by simp [hact iter])]
        rw [if_neg hz]
        rw [if_neg hbatch]
      rw [hstep]
      refine ⟨h1, ?_, ?_⟩
      · rw [h2]
        rw [← List.map_append, List.take_append_drop]
      · have hsz : batchSizes mc (fuel + 1) queue.length
            = min mc queue.length :: batchSizes mc fuel (queue.length - mc) := by
          obtain ⟨n, hn⟩ : ∃ n, queue.length = n + 1 := ⟨queue.length - 1, by omega⟩
          rw [hn]
          rfl
        simp only [List.map_cons, h3, List.length_take, List.length_drop, hsz]

/-- C7: with a 10-contact queue and concurrency 3 the loop dispatches exactly
the batches 3, 3, 3, 1 and attempts all 10 contacts in queue order —
whatever the per-contact dispatch outcomes are (an individual `makeCall`
failure is caught and never stops the batch or the loop) — then completes;
and if the status observed at the top of the first iteration is anything
other than `active`, the loop halts without dispatching anything. -/
theorem batch_executor_10_contacts (statusAt : Nat → String)
    (dispatchOk : Contact → Bool) (queue : List Contact)
    (hlen : queue.length = 10) (hact : ∀ i, statusAt i = "active") :
    (processBatches statusAt dispatchOk 3 11 queue 0).batches.map List.length
        = [3, 3, 3, 1] ∧
    (processBatches statusAt dispatchOk 3 11 queue 0).attempts.map Prod.fst = queue ∧
    (processBatches statusAt dispatchOk 3 11 queue 0).attempts.length = 10 ∧
    (processBatches statusAt dispatchOk 3 11 queue 0).stop = .completed ∧
    (∀ statusHalt : Nat → String, statusHalt 0 ≠ "active" →
      processBatches statusHalt dispatchOk 3 11 queue 0
        = { batches := [], attempts := [], stop := .halted }) := by
  obtain ⟨h1, h2, h3⟩ := processBatches_run statusAt dispatchOk 3 (by omega) hact
    11 queue 0 (by omega)
  refine ⟨?_, ?_, ?_, h1, ?_⟩
  · rw [h3, hlen]
    decide
  · rw [h2, List.map_map]
    have hcomp : (Prod.fst ∘ fun ct => (ct, dispatchOk ct)) = id := by
      funext ct
      rfl
    rw [hcomp, List.map_id]
  · rw [h2]
    simp [hlen]
  · intro statusHalt hhalt
    rw [processBatches]
    rw [if_pos hhalt]

/-- C7 witness: a concrete 10-contact queue under an always-active status
oracle and an oracle that fails every odd-indexed dispatch. -/
def c7Queue : List Contact :=
  [{ phoneNumber := "+15550000001" }, { phoneNumber := "+15550000002" },
   { phoneNumber := "+15550000003" }, { phoneNumber := "+15550000004" },
   { phoneNumber := "+15550000005" }, { phoneNumber := "+15550000006" },
   { phoneNumber := "+15550000007" }, { phoneNumber := "+15550000008" },
   { phoneNumber := "+15550000009" }, { phoneNumber := "+15550000010" }]

theorem batch_executor_10_contacts_witness :
    (processBatches (fun _ => "active") (fun ct => ct.phoneNumber ≠ "+15550000002")
        3 11 c7Queue 0).batches.map List.length = [3, 3, 3, 1] ∧
    (processBatches (fun _ => "active") (fun ct => ct.phoneNumber ≠ "+15550000002")
        3 11 c7Queue 0).attempts.length = 10 :=
  ⟨(batch_executor_10_contacts (fun _ => "active")
      (fun ct => ct.phoneNumber ≠ "+15550000002") c7Queue (by decide)
      (fun _ => rfl)).1,
   (batch_executor_10_contacts (fun _ => "active")
      (fun ct => ct.phoneNumber ≠ "+15550000002") c7Queue (by decide)
      (fun _ => rfl)).2.2.1⟩

/-- C6: when some stored campaign is `active`, `startCampaign` returns the
already-active error with HTTP 400 and writes nothing (no campaign record,
no contact queue, no batch dispatched); when none is active it writes the
campaign and its queue and either starts immediately or, for a future
schedule time, stores the record as `scheduled` and defers execution behind
a timer for the remaining delay. -/
theorem campaign_start_exclusive (existing : List Campaign) (now : Nat)
    (req : StartRequest) :
    ((∃ c ∈ existing, c.status = "active") →
      startCampaign existing now req
        = { httpStatus := 400, savedCampaign := none, savedQueue := none
            outcome := .alreadyActive }) ∧
    ((∀ c ∈ existing, c.status ≠ "active") →
      (startCampaign existing now req).httpStatus = 200 ∧
      (startCampaign existing now req).savedCampaign.isSome ∧
      (startCampaign existing now req).savedQueue = some req.contacts ∧
      (∀ t, req.scheduleTime = some t → now < t →
        (startCampaign existing now req).outcome = .scheduledTimer (t - now) ∧
        ((startCampaign existing now req).savedCampaign.map Campaign.status)
          = some "scheduled") ∧
      ((req.scheduleTime = none ∨ ∃ t, req.scheduleTime = some t ∧ ¬ now < t) →
        (startCampaign existing now req).outcome = .started ∧
        ((startCampaign existing now req).savedCampaign.map Campaign.status)
          = some "active")) := by
  constructor
  · rintro ⟨c, hc, hs⟩
    have hmem : c ∈ existing.filter (fun c => c.status = "active") :=
      List.mem_filter.mpr ⟨hc, by simp [hs]⟩
    have hpos : (existing.filter (fun c => c.status = "active")).length > 0 :=
      List.length_pos.mpr (List.ne_nil_of_mem hmem)
    unfold startCampaign
    rw [if_pos hpos]
  · intro hall
    have hnil : existing.filter (fun c => c.status = "active") = [] := by
      rw [List.filter_eq_nil_iff]
      intro c hc
      simp [hall c hc]
    have hneg : ¬ (existing.filter (fun c => c.status = "active")).length > 0 := by
      rw [hnil]
      simp
    unfold startCampaign
    rw [if_neg hneg]
    cases hst : req.scheduleTime with
    | none =>
      dsimp only
      refine ⟨rfl, rfl, rfl, ?_, ?_⟩
      · intro t ht
        simp at ht
      · intro _
        exact ⟨rfl, rfl⟩
    | some t =>
      dsimp only
      by_cases hfut : now < t
      · rw [if_pos hfut]
        refine ⟨rfl, rfl, rfl, ?_, ?_⟩
        · intro t' ht' _
          injection ht' with hh
          subst hh
          exact ⟨rfl, rfl⟩
        · rintro (hn | ⟨t', ht', hnf⟩)
          · simp at hn
          · injection ht' with hh
            subst hh
            exact absurd hfut hnf
      · rw [if_neg hfut]
        refine ⟨rfl, rfl, rfl, ?_, ?_⟩
        · intro t' ht' hf
          injection ht' with hh
          subst hh
          exact absurd hf hfut
        · intro _
          exact ⟨rfl, rfl⟩

/-- C6 witness: one already-active campaign blocks a new start with no
writes; with no active campaign a start with no schedule time begins
immediately. -/
theorem campaign_start_exclusive_witness :
    startCampaign [{ id := "camp1", status := "active" }] 50
        { id := "camp2", name := "n", contacts := [], callDelay := 5, maxConcurrent := 3 }
      = { httpStatus := 400, savedCampaign := none, savedQueue := none
          outcome := .alreadyActive } ∧
    (startCampaign [{ id := "camp1", status := "stopped" }] 50
        { id := "camp2", name := "n", contacts := [], callDelay := 5, maxConcurrent := 3 }).outcome
      = .started :=
  ⟨(campaign_start_exclusive [{ id := "camp1", status := "active" }] 50
      { id := "camp2", name := "n", contacts := [], callDelay := 5, maxConcurrent := 3 }).1
      ⟨{ id := "camp1", status := "active" }, by decide, rfl⟩,
   ((campaign_start_exclusive [{ id := "camp1", status := "stopped" }] 50
      { id := "camp2", name := "n", contacts := [], callDelay := 5, maxConcurrent := 3 }).2
      (by decide)).2.2.2.2 (Or.inl rfl) |>.1⟩

/-! ### Claim C9 -/

/-- The fixed retry maximum (`const maxRetries = 3` in both
`setupAudioStreamWithRetry` and `handleAudioStreamRetry`). -/
def maxRetries : Nat := 3

/-- `Math.pow(2, retryCount) * 1000` — the exponential backoff delay before
the retry scheduled at `retryCount` (so the k-th retry, scheduled with
`retryCount = k - 1`, waits `2^(k-1)` seconds: 1s, 2s, 4s). -/
def retryDelayMs (retryCount : Nat) : Nat := 2 ^ retryCount * 1000

/-- The outcome of one `handleAudioStreamRetry` invocation: the new monitor
state, the timer it scheduled (next retry count and delay, or `none` past
the maximum) and the event type emitted to the call's listeners. -/
structure RetryOut where
  monitor : Monitor
  scheduled : Option (Nat × Nat) := none
  emitted : String
  deriving Repr, DecidableEq

/-- `CallMonitor.handleAudioStreamRetry` (callMonitor.js line 279): below the
maximum it records the attempt in `retryAttempts`, schedules the next setup
with exponential backoff and emits `audio_retry_scheduled`; at the maximum
it clears the retry record and emits `audio_retry_failed` — and in neither
branch does it touch `activeCalls`, so the underlying call is never
terminated by audio failures. -/
def handleAudioStreamRetry (m : Monitor) (now : Nat) (callId errorReason : String)
    (retryCount : Nat) : RetryOut :=
  if retryCount < maxRetries then
    let nextRetryCount := retryCount + 1
    let retryDelay := retryDelayMs retryCount
    let info : RetryInfo :=
      { count := nextRetryCount, lastError := errorReason
        nextRetryAt := now + retryDelay }
    { monitor := { m with retryAttempts := mapSet m.retryAttempts callId info }
      scheduled := some (nextRetryCount, retryDelay)
      emitted := "audio_retry_scheduled" }
  else
    { monitor := { m with retryAttempts := mapDel m.retryAttempts callId }
      scheduled := none
      emitted := "audio_retry_failed" }

/-- The `ws.on('open')` handler of `setupAudioStreamWithRetry`: a successful
connection resets the retry counter (`this.retryAttempts.delete(callId)`;
the socket registration and the `audio_connected` broadcast carry no registry
state the claims mention). -/
def audioStreamOpen (m : Monitor) (callId : String) : Monitor :=
  { m with retryAttempts := mapDel m.retryAttempts callId }

/-- C9: retries are scheduled only below the fixed maximum of 3 and carry a
next-count of at most 3; the k-th retry waits exactly `2^(k-1)` seconds, so
delays are non-decreasing (in fact strictly increasing); a successful open
clears the retry record; and exceeding the maximum emits the permanent
`audio_retry_failed` event to listeners while leaving `activeCalls` — the
underlying call — untouched. -/
theorem audio_retry_policy (m : Monitor) (now : Nat) (callId err : String)
    (rc : Nat) :
    (∀ n d, (handleAudioStreamRetry m now callId err rc).scheduled = some (n, d) →
      rc < maxRetries ∧ n = rc + 1 ∧ n ≤ maxRetries ∧ d = retryDelayMs rc) ∧
    (∀ k, 1 ≤ k → k ≤ maxRetries →
      (handleAudioStreamRetry m now callId err (k - 1)).scheduled
        = some (k, 2 ^ (k - 1) * 1000)) ∧
    (∀ j k : Nat, j ≤ k → retryDelayMs j ≤ retryDelayMs k) ∧
    (rc ≥ maxRetries →
      (handleAudioStreamRetry m now callId err rc).scheduled = none ∧
      (handleAudioStreamRetry m now callId err rc).emitted = "audio_retry_failed") ∧
    (handleAudioStreamRetry m now callId err rc).monitor.activeCalls = m.activeCalls ∧
    mapGet (audioStreamOpen m callId).retryAttempts callId = none ∧
    (audioStreamOpen m callId).activeCalls = m.activeCalls := by
  refine ⟨?_, ?_, ?_, ?_, ?_, ?_, ?_⟩
  · intro n d h
    unfold handleAudioStreamRetry at h
    by_cases hrc : rc < maxRetries
    · rw [if_pos hrc] at h
      dsimp only at h
      injection h with h'
      injection h' with h1 h2
      subst h1
      subst h2
      exact ⟨hrc, rfl, by unfold maxRetries at *; omega, rfl⟩
    · rw [if_neg hrc] at h
      dsimp only at h
      cases h
  · intro k hk1 hk2
    have hlt : k - 1 < maxRetries := by
      unfold maxRetries at *
      omega
    unfold handleAudioStreamRetry
    rw [if_pos hlt]
    dsimp only
    have hkk : k - 1 + 1 = k := by omega
    rw [hkk]
    rfl
  · intro j k hjk
    unfold retryDelayMs
    exact Nat.mul_le_mul_right 1000 (Nat.pow_le_pow_right (by omega) hjk)
  · intro hge
    unfold handleAudioStreamRetry
    rw [if_neg (by omega)]
    exact ⟨rfl, rfl⟩
  · unfold handleAudioStreamRetry
    by_cases hrc : rc < maxRetries
    · rw [if_pos hrc]
    · rw [if_neg hrc]
  · exact mapGet_mapDel_self m.retryAttempts callId
  · rfl

/-- C9 witness: the third (final) retry waits 4 seconds; the fourth failure
reports permanent audio failure while the call entry survives. -/
theorem audio_retry_policy_witness :
    (handleAudioStreamRetry c1Registry 0 "c1" "timeout" 2).scheduled
      = some (3, 4000) ∧
    (handleAudioStreamRetry c1Registry 0 "c1" "timeout" 3).emitted
      = "audio_retry_failed" ∧
    (handleAudioStreamRetry c1Registry 0 "c1" "timeout" 3).monitor.activeCalls
      = c1Registry.activeCalls := by
  refine ⟨?_, ?_, ?_⟩
  · have h := (audio_retry_policy c1Registry 0 "c1" "timeout" 2).2.1 3
      (by omega) (by unfold maxRetries; omega)
    simpa using h
  · exact ((audio_retry_policy c1Registry 0 "c1" "timeout" 3).2.2.2.1
      (by unfold maxRetries; omega)).2
  · exact (audio_retry_policy c1Registry 0 "c1" "timeout" 3).2.2.2.2.1

/-! ### Claim C8 -/

/-- `formatToE164` (server/utils/validators.js line 101) with the default
country code `'1'`: strip non-digits, then format 10-digit, 11-digit-with-1
and longer international numbers; anything shorter is invalid (`null`). -/
def formatToE164 (phone : String) : Option String :=
  let cleaned := phone.toList.filter Char.isDigit
  if cleaned.length = 10 then some ("+1" ++ String.mk cleaned)
  else if cleaned.length = 11 ∧ cleaned.head? = some '1' then
    some ("+" ++ String.mk cleaned)
  else if cleaned.length > 10 then some ("+" ++ String.mk cleaned)
  else none

/-- An entry of the module-level `activeCallsByPhone` map in callController
(the phone-dedup registry). -/
structure PhoneEntry where
  callId : String
  createdAt : Nat
  deriving Repr, DecidableEq

/-- The state `exports.createCall` reads and writes: the phone-dedup map and
the call monitor. -/
structure CallSysState where
  phoneMap : List (String × PhoneEntry)
  monitor : Monitor
  deriving Repr, DecidableEq

/-- The statuses that keep a dedup entry alive
(`['queued', 'ringing', 'in-progress']` in the dedup check). -/
def activeDedupStatuses : List String := ["queued", "ringing", "in-progress"]

/-- The observable outcome of a call-create request: a 400 validation
failure, the 409 duplicate rejection carrying the existing call id, or a
successful creation. -/
inductive CreateOutcome where
  | badRequest (msg : String)
  | conflict (existingCallId existingStatus : String)
  | created (callId : String)
  deriving Repr, DecidableEq

/-- `exports.createCall` (callController section of callMonitor.js, line
486): validate the assistant selection and the phone number, reject with 409
when the tracked call for this phone is still `queued`/`ringing`/
`in-progress` (dropping a stale entry otherwise), then dispatch through the
voice-AI provider (modelled as succeeding with `newCallId`/`newCallStatus`),
track the phone and register the call in the monitor. -/
def createCall (st : CallSysState) (now : Nat) (phoneNumber : String)
    (assistantType : Option String) (newCallId : String)
    (newCallStatus : Option String) : CreateOutcome × CallSysState :=
  if assistantType = none then
    (.badRequest "Please select an assistant", st)
  else
    match formatToE164 phoneNumber with
    | none => (.badRequest "Invalid phone number format", st)
    | some phone =>
      let proceed : CallSysState → CreateOutcome × CallSysState := fun st1 =>
        let st2 : CallSysState :=
          { phoneMap := mapSet st1.phoneMap phone { callId := newCallId, createdAt := now }
            monitor := addCall st1.monitor now { id := newCallId, status := newCallStatus } }
        (.created newCallId, st2)
      match mapGet st.phoneMap phone with
      | some e =>
        match mapGet st.monitor.activeCalls e.callId with
        | some c =>
          if c.status ∈ activeDedupStatuses then
            (.conflict e.callId c.status, st)
          else
            proceed { st with phoneMap := mapDel st.phoneMap phone }
        | none => proceed { st with phoneMap := mapDel st.phoneMap phone }
      | none => proceed st

/-- `exports.cleanupPhoneTracking` (same module, line 682): drop the dedup
entry only when it still points at the finishing call. -/
def cleanupPhoneTracking (st : CallSysState) (callId phoneNumber : String) :
    CallSysState :=
  match mapGet st.phoneMap phoneNumber with
  | some e =>
    if e.callId = callId then { st with phoneMap := mapDel st.phoneMap phoneNumber }
    else st
  | none => st

theorem mem_mapSet {α : Type} (m : List (String × α)) (k : String) (v : α)
    (p : String × α) (h : p ∈ mapSet m k v) : p = (k, v) ∨ p ∈ m := by
  induction m with
  | nil =>
    simp [mapSet] at h
    exact Or.inl h
  | cons hd tl ih =>
    obtain ⟨hk, hv⟩ := hd
    simp only [mapSet] at h
    by_cases he : hk = k
    · rw [if_pos he] at h
      rcases List.mem_cons.mp h with h' | h'
      · exact Or.inl h'
      · exact Or.inr (List.mem_cons_of_mem _ h')
    · rw [if_neg he] at h
      rcases List.mem_cons.mp h with h' | h'
      · exact Or.inr (h' ▸ List.mem_cons_self _ _)
      · rcases ih h' with h'' | h''
        · exact Or.inl h''
        · exact Or.inr (List.mem_cons_of_mem _ h'')

theorem mapDel_sublist {α : Type} (m : List (String × α)) (k : String) :
    (mapDel m k).Sublist m := by
  induction m with
  | nil => simp [mapDel]
  | cons hd tl ih =>
    obtain ⟨hk, hv⟩ := hd
    simp only [mapDel]
    by_cases he : hk = k
    · rw [if_pos he]
      exact ih.cons _
    · rw [if_neg he]
      exact ih.cons₂ _

theorem mem_keys_mapSet {α : Type} (m : List (String × α)) (k k' : String) (v : α)
    (h : k' ∈ (mapSet m k v).map Prod.fst) : k' = k ∨ k' ∈ m.map Prod.fst := by
  rcases List.mem_map.mp h with ⟨p, hmem, heq⟩
  rcases mem_mapSet m k v p hmem with h' | h'
  · left
    rw [← heq, h']
  · right
    rw [← heq]
    exact List.mem_map_of_mem Prod.fst h'

theorem keysNodup_mapSet {α : Type} (m : List (String × α)) (k : String) (v : α)
    (h : keysNodup m) : keysNodup (mapSet m k v) := by
  induction m with
  | nil => simp [keysNodup, mapSet]
  | cons hd tl ih =>
    obtain ⟨hk, hv⟩ := hd
    unfold keysNodup at h ⊢
    rw [List.map_cons, List.nodup_cons] at h
    obtain ⟨hnotin, htl⟩ := h
    simp only [mapSet]
    by_cases he : hk = k
    · rw [if_pos he]
      rw [List.map_cons, List.nodup_cons]
      subst he
      exact ⟨hnotin, htl⟩
    · rw [if_neg he]
      rw [List.map_cons, List.nodup_cons]
      refine ⟨?_, ih htl⟩
      intro hmem
      rcases mem_keys_mapSet tl k hk v hmem with h' | h'
      · exact he h'
      · exact hnotin h'

theorem keysNodup_mapDel {α : Type} (m : List (String × α)) (k : String)
    (h : keysNodup m) : keysNodup (mapDel m k) := by
  unfold keysNodup at h ⊢
  exact h.sublist ((mapDel_sublist m k).map Prod.fst)

/-- C8: (a) a call-create request for a phone whose tracked call is still
`queued`/`ringing`/`in-progress` is rejected with HTTP 409 carrying the
existing call id, leaving the whole state (dedup map and monitor) unchanged;
(b) when the tracked call is in any other (terminal) status the stale entry
is dropped and the request succeeds, re-tracking the phone with the new
call; (c) `cleanupPhoneTracking` clears a matching entry once the call
reaches a terminal status, (d) after which a request to the same number
succeeds; and (e) key-uniqueness of the dedup map — at most one entry per
phone number — is preserved by both operations. -/
theorem phone_dedup (st : CallSysState) (now : Nat) (p : String)
    (assistantType : Option String) (ncid : String) (ncst : Option String) :
    (∀ ph e c, assistantType ≠ none → formatToE164 p = some ph →
      mapGet st.phoneMap ph = some e →
      mapGet st.monitor.activeCalls e.callId = some c →
      c.status ∈ activeDedupStatuses →
      createCall st now p assistantType ncid ncst = (.conflict e.callId c.status, st)) ∧
    (∀ ph e c, assistantType ≠ none → formatToE164 p = some ph →
      mapGet st.phoneMap ph = some e →
      mapGet st.monitor.activeCalls e.callId = some c →
      c.status ∉ activeDedupStatuses →
      (createCall st now p assistantType ncid ncst).1 = .created ncid ∧
      mapGet (createCall st now p assistantType ncid ncst).2.phoneMap ph
        = some { callId := ncid, createdAt := now }) ∧
    (∀ ph e cid, mapGet st.phoneMap ph = some e → e.callId = cid →
      mapGet (cleanupPhoneTracking st cid ph).phoneMap ph = none) ∧
    (∀ ph, assistantType ≠ none → formatToE164 p = some ph →
      mapGet st.phoneMap ph = none →
      (createCall st now p assistantType ncid ncst).1 = .created ncid) ∧
    (keysNodup st.phoneMap →
      keysNodup (createCall st now p assistantType ncid ncst).2.phoneMap ∧
      (∀ cid ph2, keysNodup (cleanupPhoneTracking st cid ph2).phoneMap)) := by
  refine ⟨?_, ?_, ?_, ?_, ?_⟩
  · intro ph e c hat hfmt hentry hcall hst
    unfold createCall
    rw [if_neg hat, hfmt]
    dsimp only
    rw [hentry]
    dsimp only
    rw [hcall]
    dsimp only
    rw [if_pos hst]
  · intro ph e c hat hfmt hentry hcall hst
    unfold createCall
    rw [if_neg hat, hfmt]
    dsimp only
    rw [hentry]
    dsimp only
    rw [hcall]
    dsimp only
    rw [if_neg hst]
    exact ⟨rfl, mapGet_mapSet_self _ _ _⟩
  · intro ph e cid hentry hcid
    unfold cleanupPhoneTracking
    rw [hentry]
    dsimp only
    rw [if_pos hcid]
    exact mapGet_mapDel_self _ _
  · intro ph hat hfmt hnone
    unfold createCall
    rw [if_neg hat, hfmt]
    dsimp only
    rw [hnone]
  · intro hnd
    constructor
    · unfold createCall
      by_cases hat : assistantType = none
      · rw [if_pos hat]
        exact hnd
      · rw [if_neg hat]
        cases hfmt : formatToE164 p with
        | none => exact hnd
        | some ph =>
          dsimp only
          cases hentry : mapGet st.phoneMap ph with
          | none => exact keysNodup_mapSet _ _ _ hnd
          | some e =>
            dsimp only
            cases hcall : mapGet st.monitor.activeCalls e.callId with
            | none => exact keysNodup_mapSet _ _ _ (keysNodup_mapDel _ _ hnd)
            | some c =>
              dsimp only
              by_cases hst : c.status ∈ activeDedupStatuses
              · rw [if_pos hst]
                exact hnd
              · rw [if_neg hst]
                exact keysNodup_mapSet _ _ _ (keysNodup_mapDel _ _ hnd)
    · intro cid ph2
      unfold cleanupPhoneTracking
      cases hentry : mapGet st.phoneMap ph2 with
      | none => exact hnd
      | some e =>
        dsimp only
        by_cases hcid : e.callId = cid
        · rw [if_pos hcid]
          exact keysNodup_mapDel _ _ hnd
        · rw [if_neg hcid]
          exact hnd

/-- A dedup map tracking one in-progress call to +15551234567. -/
def c8State : CallSysState :=
  { phoneMap := [("+15551234567", { callId := "call-A", createdAt := 0 })]
    monitor := { activeCalls := [("call-A", { status := "in-progress", addedAt := 0 })] } }

/-- C8 witness: the duplicate request is rejected with the existing call id
and no state change; after `cleanupPhoneTracking` the same number can be
dialed again. -/
theorem phone_dedup_witness :
    createCall c8State 50 "5551234567" (some "pfas") "call-B" (some "queued")
      = (.conflict "call-A" "in-progress", c8State) ∧
    (createCall (cleanupPhoneTracking c8State "call-A" "+15551234567") 60
        "5551234567" (some "pfas") "call-B" (some "queued")).1 = .created "call-B" := by
  constructor
  · exact (phone_dedup c8State 50 "5551234567" (some "pfas") "call-B"
      (some "queued")).1 "+15551234567" { callId := "call-A", createdAt := 0 }
      { status := "in-progress", addedAt := 0 } (by simp) (by decide) (by decide)
      (by decide) (by decide)
  · exact (phone_dedup (cleanupPhoneTracking c8State "call-A" "+15551234567") 60
      "5551234567" (some "pfas") "call-B" (some "queued")).2.2.2.1 "+15551234567"
      (by simp) (by decide)
      ((phone_dedup c8State 0 "x" none "y" none).2.2.1 "+15551234567"
        { callId := "call-A", createdAt := 0 } "call-A" (by decide) rfl)

/-! ### Claim C5 -/

/-- A telephony-provider call as returned by the Twilio call-search API. -/
structure TwilioCall where
  sid : String
  toNumber : String
  fromNumber : String
  startTime : Nat
  status : String
  deriving Repr, DecidableEq

/-- `TwilioService.findActiveCallByPhone` (twilioService.js line 114): ask
the provider for calls to the customer's number from the service number,
started within the last 30 minutes and still `in-progress`, and take the
first (most recent) one; `none` when there is no match.  `providerCalls` is
the provider's call list (most recent first, as the API returns it). -/
def findActiveCallByPhone (providerCalls : List TwilioCall) (now : Nat)
    (serviceNumber customerPhone : String) : Option TwilioCall :=
  (providerCalls.filter (fun c =>
    c.toNumber = customerPhone && c.fromNumber = serviceNumber &&
    decide (now < c.startTime + 30 * 60 * 1000) && c.status = "in-progress")).head?

/-- `conf_${Date.now()}_${finalLeadId}` — the conference id generator. -/
def makeConferenceId (now : Nat) (leadId : String) : String :=
  "conf_" ++ toString now ++ "_" ++ leadId

/-- The conference record persisted under `conference:{id}` by the
`/transfer-conference` route (only the claim-relevant fields). -/
structure ConferenceRecord where
  conferenceId : String
  leadId : String
  customerPhone : String
  status : String
  participants : List String
  transferMethod : Option String := none
  holdAssistantCallId : Option String := none
  queueCallSid : Option String := none
  customerCallSid : Option String := none
  deriving Repr, DecidableEq

/-- The tool-call response the route returns to the voice-AI provider:
`method` is `result.method` of the seamless branch, `sipUri` is
`result.transferDestination.sipUri` of the fallback branch, and
`conferenceMethod` is `result.details.conferenceMethod`. -/
structure TransferResponse where
  success : Bool
  method : Option String := none
  sipUri : Option String := none
  conferenceMethod : Option String := none
  deriving Repr, DecidableEq

/-- The happy path of `POST /transfer-conference` (vapiTools.js line 42):
create the room, persist the record (`initializing`), dispatch the hold
assistant (`hold_assistant_joining`), dial the consultant queue
(`waiting_for_agent`), then attempt the seamless join: if the customer's
active call is found it is modified in place and the record is re-persisted
with `transferMethod: 'call_modification'`; otherwise no further persist
happens — the record stays `waiting_for_agent` with no `transferMethod`
field — and the response carries the SIP fallback instruction, with the
`sip_transfer_fallback` marker only in `details.conferenceMethod`.
External calls (room creation, hold-assistant dispatch, queue dial, call
modification) are modelled as succeeding; a throw would take the route's
catch branch, which the claim does not cover. -/
def transferConference (providerCalls : List TwilioCall) (now : Nat)
    (serviceNumber customerPhone leadId holdCallId queueSid : String) :
    ConferenceRecord × TransferResponse :=
  let confId := makeConferenceId now leadId
  let rec0 : ConferenceRecord :=
    { conferenceId := confId, leadId := leadId, customerPhone := customerPhone
      status := "initializing", participants := [] }
  let rec1 : ConferenceRecord :=
    { rec0 with holdAssistantCallId := some holdCallId
                participants := rec0.participants ++ ["hold_assistant"]
                status := "hold_assistant_joining" }
  let rec2 : ConferenceRecord :=
    { rec1 with queueCallSid := some queueSid, status := "waiting_for_agent" }
  match findActiveCallByPhone providerCalls now serviceNumber customerPhone with
  | some activeCall =>
    let rec3 : ConferenceRecord :=
      { rec2 with customerCallSid := some activeCall.sid
                  participants := rec2.participants ++ ["customer_joined"]
                  status := "customer_joining"
                  transferMethod := some "call_modification" }
    (rec3, { success := true, method := some "call_modification" })
  | none =>
    (rec2, { success := true
             sipUri := some ("sip:" ++ confId ++ "@conference.twilio.com")
             conferenceMethod := some "sip_transfer_fallback" })

/-- C5 counterexample: when no active customer call is found, the response
does carry the SIP fallback, but the *persisted conference record* never
receives `transferMethod = 'sip_transfer_fallback'` — it is left at
`waiting_for_agent` with no transferMethod field (the marker exists only in
the response's `details.conferenceMethod`), contradicting the claim that the
record shows `sip_transfer_fallback`. -/
theorem conference_fallback_record_unmarked :
    (transferConference [] 1000 "+17254447698" "+15551234567" "lead1"
        "hold1" "queue1").1.transferMethod ≠ some "sip_transfer_fallback" ∧
    (transferConference [] 1000 "+17254447698" "+15551234567" "lead1"
        "hold1" "queue1").1.transferMethod = none ∧
    (transferConference [] 1000 "+17254447698" "+15551234567" "lead1"
        "hold1" "queue1").2.sipUri.isSome = true := by
  refine ⟨by decide, by decide, by decide⟩

/-- C5 (amended): every completed conference-creation request resolves to
exactly one transfer method in its response — seamless call modification
(no SIP instruction) or the SIP fallback instruction (no modification) —
never both, never neither; the persisted record carries
`transferMethod = 'call_modification'` exactly in the active-call case,
while in the fallback case the record keeps status `waiting_for_agent` with
no `transferMethod` field, the `sip_transfer_fallback` marker appearing only
in the response's `details.conferenceMethod`. -/
theorem conference_transfer_resolution (providerCalls : List TwilioCall)
    (now : Nat) (serviceNumber customerPhone leadId holdCallId queueSid : String) :
    (∀ ac, findActiveCallByPhone providerCalls now serviceNumber customerPhone
        = some ac →
      (transferConference providerCalls now serviceNumber customerPhone leadId
          holdCallId queueSid).1.transferMethod = some "call_modification" ∧
      (transferConference providerCalls now serviceNumber customerPhone leadId
          holdCallId queueSid).1.customerCallSid = some ac.sid ∧
      (transferConference providerCalls now serviceNumber customerPhone leadId
          holdCallId queueSid).2.method = some "call_modification" ∧
      (transferConference providerCalls now serviceNumber customerPhone leadId
          holdCallId queueSid).2.sipUri = none) ∧
    (findActiveCallByPhone providerCalls now serviceNumber customerPhone = none →
      (transferConference providerCalls now serviceNumber customerPhone leadId
          holdCallId queueSid).1.transferMethod = none ∧
      (transferConference providerCalls now serviceNumber customerPhone leadId
          holdCallId queueSid).1.status = "waiting_for_agent" ∧
      (transferConference providerCalls now serviceNumber customerPhone leadId
          holdCallId queueSid).2.sipUri
        = some ("sip:" ++ makeConferenceId now leadId ++ "@conference.twilio.com") ∧
      (transferConference providerCalls now serviceNumber customerPhone leadId
          holdCallId queueSid).2.conferenceMethod = some "sip_transfer_fallback") ∧
    (((transferConference providerCalls now serviceNumber customerPhone leadId
          holdCallId queueSid).2.method = some "call_modification" ∧
      (transferConference providerCalls now serviceNumber customerPhone leadId
          holdCallId queueSid).2.sipUri = none) ∨
     ((transferConference providerCalls now serviceNumber customerPhone leadId
          holdCallId queueSid).2.method = none ∧
      (transferConference providerCalls now serviceNumber customerPhone leadId
          holdCallId queueSid).2.sipUri.isSome = true)) := by
  refine ⟨?_, ?_, ?_⟩
  · intro ac hac
    unfold transferConference
    dsimp only
    rw [hac]
    exact ⟨rfl, rfl, rfl, rfl⟩
  · intro hnone
    unfold transferConference
    dsimp only
    rw [hnone]
    exact ⟨rfl, rfl, rfl, rfl⟩
  · unfold transferConference
    dsimp only
    cases hfind : findActiveCallByPhone providerCalls now serviceNumber customerPhone with
    | some ac => exact Or.inl ⟨rfl, rfl⟩
    | none => exact Or.inr ⟨rfl, rfl⟩

/-- A provider call list holding the customer's live call. -/
def c5ProviderCalls : List TwilioCall :=
  [{ sid := "CA100", toNumber := "+15551234567", fromNumber := "+17254447698"
     startTime := 900000, status := "in-progress" }]

/-- C5 amended-claim witness: the seamless branch on a concrete matching
provider call, and the fallback branch on an empty provider list. -/
theorem conference_transfer_resolution_witness :
    (transferConference c5ProviderCalls 1000000 "+17254447698" "+15551234567"
        "lead1" "hold1" "queue1").1.transferMethod = some "call_modification" ∧
    (transferConference [] 1000000 "+17254447698" "+15551234567"
        "lead1" "hold1" "queue1").2.conferenceMethod = some "sip_transfer_fallback" :=
  ⟨((conference_transfer_resolution c5ProviderCalls 1000000 "+17254447698"
      "+15551234567" "lead1" "hold1" "queue1").1
      { sid := "CA100", toNumber := "+15551234567", fromNumber := "+17254447698"
        startTime := 900000, status := "in-progress" } (by decide)).1,
   ((conference_transfer_resolution [] 1000000 "+17254447698"
      "+15551234567" "lead1" "hold1" "queue1").2.1 (by decide)).2.2.2⟩
